import Mathlib

/-!
Verification development for the CoinGecko market-data agent.

The repository exposes four read-only market-data operations (price lookup,
trending coins, new listings, token-by-address) through three surfaces: an
Express HTTP route table (src/routes/coingecko.routes.ts), an MCP protocol
dispatch (src/server.ts: tools, prompts, resources), and a facade
(src/controllers/tool.controller.ts).  Every operation proxies the CoinGecko
REST API through a small helper, callCoinGeckoAPI.

The embedding below translates that code shallowly:

* JavaScript values that flow through query extraction and argument objects
  are modelled by `JSVal` (undefined, null, string, boolean, number), with
  JavaScript truthiness (`truthy`) and template/String() stringification
  (`jsToString`).
* The upstream JSON payload is the `Json` inductive, kept opaque to the
  handlers (they pass it through unchanged).
* The outbound `fetch` call is an oracle `Fetch` mapping the performed
  request (endpoint plus query pairs, in append order) to either an HTTP
  response or a network-level failure.  Each embedded function returns,
  alongside its result, the list of upstream calls it performed, so that
  "the Upstream Client is never invoked" is a provable statement.
* Thrown JavaScript `Error`s are `Except.error` carrying the message string.

Each surface is translated separately from its own source lines; the code
duplicates the operation logic per surface, and the equivalence (or not) of
the surfaces is proved, never assumed.
-/

namespace CoinGeckoAgent

/-- A JavaScript value as it appears in `req.query`, `req.params` and MCP
`arguments` objects: absent properties read as `undefined`. -/
inductive JSVal where
  | undef : JSVal
  | null : JSVal
  | str : String → JSVal
  | bool : Bool → JSVal
  | num : Int → JSVal
deriving DecidableEq, Repr

/-- JavaScript stringification, as performed by `String(v)` and by template
literals and `URLSearchParams.append`. -/
def jsToString : JSVal → String
  | JSVal.undef => "undefined"
  | JSVal.null => "null"
  | JSVal.str s => s
  | JSVal.bool true => "true"
  | JSVal.bool false => "false"
  | JSVal.num n => toString n

/-- JavaScript truthiness: `undefined`, `null`, the empty string, `false`
and `0` are falsy; everything else here is truthy. -/
def truthy : JSVal → Bool
  | JSVal.undef => false
  | JSVal.null => false
  | JSVal.str s => !(s == "")
  | JSVal.bool b => b
  | JSVal.num n => !(n == 0)

/-- An upstream JSON payload.  The handlers treat it as opaque data. -/
inductive Json where
  | null : Json
  | bool : Bool → Json
  | num : Int → Json
  | str : String → Json
  | arr : List Json → Json
  | obj : List (String × Json) → Json

/-- An HTTP response from the upstream provider, as `fetch` resolves it:
`status`, `statusText` and the parsed JSON body (`response.json()`). -/
structure HttpResp where
  status : Nat
  statusText : String
  body : Json

/-- A parameter map under construction in a handler: insertion-ordered
`(key, value)` pairs, as `Object.entries` enumerates them. -/
abbrev QueryMap := List (String × JSVal)

/-- One outbound request of the Upstream Client: the endpoint path appended
to the fixed base URL, and the query-string pairs in append order. -/
structure UpstreamCall where
  endpoint : String
  query : List (String × String)
deriving DecidableEq, Repr

/-- What the single `await fetch(...)` does: either an HTTP response or a
network-level rejection (DNS, connection refused, ...) with its message. -/
inductive FetchOutcome where
  | response : HttpResp → FetchOutcome
  | networkFailure : String → FetchOutcome

/-- The environment's behaviour of `fetch`, as an oracle over the request. -/
abbrev Fetch := UpstreamCall → FetchOutcome

/-- The query-string pairs appended by callCoinGeckoAPI's loop:
`if (value !== undefined && value !== null && value !== '')
   url.searchParams.append(key, value)`, in entry order, with `append`
stringifying the value. -/
def buildQuery (params : QueryMap) : List (String × String) :=
  params.filterMap fun kv =>
    if kv.2 = JSVal.undef ∨ kv.2 = JSVal.null ∨ kv.2 = JSVal.str "" then none
    else some (kv.1, jsToString kv.2)

/-- The request callCoinGeckoAPI builds from its arguments (the `params`
object is optional; when absent no pair is appended). -/
def mkCall (endpoint : String) (params : Option QueryMap) : UpstreamCall :=
  { endpoint := endpoint
    query := match params with
      | none => []
      | some ps => buildQuery ps }

/-- `response.ok`: the status is in the inclusive range 200-299. -/
def respOk (r : HttpResp) : Bool :=
  decide (200 ≤ r.status ∧ r.status ≤ 299)

/-- callCoinGeckoAPI (identical in src/routes/coingecko.routes.ts and in
MCPServer, src/server.ts): builds the URL, performs one fetch, throws
`CoinGecko API error: <status> <statusText>` when `!response.ok`, and
returns the parsed JSON body otherwise.  The second component records the
upstream calls performed (always exactly the one). -/
def callCoinGeckoAPI (fetch : Fetch) (endpoint : String) (params : Option QueryMap) :
    Except String Json × List UpstreamCall :=
  let call := mkCall endpoint params
  match fetch call with
  | FetchOutcome.networkFailure msg => (Except.error msg, [call])
  | FetchOutcome.response resp =>
      if respOk resp then
        (Except.ok resp.body, [call])
      else
        (Except.error ("CoinGecko API error: " ++ toString resp.status ++ " " ++ resp.statusText),
          [call])

/-- The uniform payload an operation produces: `{success: true, data,
parameters}`, `{success: true, data, message}` (trending and new listings),
or `{error, message}` on failure. -/
inductive Envelope where
  | success : Json → QueryMap → Envelope
  | successMsg : Json → String → Envelope
  | failure : String → String → Envelope

/-- Whether a success envelope carries a `parameters` field. -/
def Envelope.hasParametersField : Envelope → Bool
  | Envelope.success _ _ => true
  | _ => false

/-- An HTTP response body sent by a route: the 400 validation body
`{error, required, message}`, or an operation envelope serialised as JSON. -/
inductive HttpBody where
  | validationError : String → List String → String → HttpBody
  | env : Envelope → HttpBody

/-- The observable outcome of one HTTP route invocation: status code, JSON
body, and the upstream calls performed while handling it. -/
structure HttpResult where
  status : Nat
  body : HttpBody
  calls : List UpstreamCall

/-- The inputs of the price-lookup operation, one field per parameter read
from `req.query` (HTTP route) or from `args` (MCP handler, facade). -/
structure SimplePriceInput where
  ids : JSVal
  vs_currencies : JSVal
  include_market_cap : JSVal
  include_24hr_vol : JSVal
  include_24hr_change : JSVal
  include_last_updated_at : JSVal
  precision : JSVal
deriving DecidableEq, Repr

/-- The six optional inputs of the token-by-address operation. -/
structure TokenOptions where
  localization : JSVal
  tickers : JSVal
  market_data : JSVal
  community_data : JSVal
  developer_data : JSVal
  sparkline : JSVal
deriving DecidableEq, Repr

/-- A token-by-address call with no optional parameter supplied. -/
def noTokenOptions : TokenOptions :=
  ⟨JSVal.undef, JSVal.undef, JSVal.undef, JSVal.undef, JSVal.undef, JSVal.undef⟩

/-- The `params` object built by the HTTP route GET /simple/price: required
values stored as extracted, each optional added when truthy
(`if (include_market_cap) params.include_market_cap = ...`). -/
def simplePriceHttpParams (i : SimplePriceInput) : QueryMap :=
  [("ids", i.ids), ("vs_currencies", i.vs_currencies)]
    ++ (if truthy i.include_market_cap then [("include_market_cap", i.include_market_cap)] else [])
    ++ (if truthy i.include_24hr_vol then [("include_24hr_vol", i.include_24hr_vol)] else [])
    ++ (if truthy i.include_24hr_change then [("include_24hr_change", i.include_24hr_change)] else [])
    ++ (if truthy i.include_last_updated_at then
          [("include_last_updated_at", i.include_last_updated_at)] else [])
    ++ (if truthy i.precision then [("precision", i.precision)] else [])

/-- The `params` object built by MCPServer.handleGetSimplePrice: required
values stored as given, each optional added when not `undefined`, converted
with `String(...)` (`if (args.include_market_cap !== undefined)
params.include_market_cap = String(args.include_market_cap)`). -/
def simplePriceMcpParams (i : SimplePriceInput) : QueryMap :=
  [("ids", i.ids), ("vs_currencies", i.vs_currencies)]
    ++ (if i.include_market_cap ≠ JSVal.undef then
          [("include_market_cap", JSVal.str (jsToString i.include_market_cap))] else [])
    ++ (if i.include_24hr_vol ≠ JSVal.undef then
          [("include_24hr_vol", JSVal.str (jsToString i.include_24hr_vol))] else [])
    ++ (if i.include_24hr_change ≠ JSVal.undef then
          [("include_24hr_change", JSVal.str (jsToString i.include_24hr_change))] else [])
    ++ (if i.include_last_updated_at ≠ JSVal.undef then
          [("include_last_updated_at", JSVal.str (jsToString i.include_last_updated_at))] else [])
    ++ (if i.precision ≠ JSVal.undef then
          [("precision", JSVal.str (jsToString i.precision))] else [])

/-- The `params` object built for the token-by-address optional inputs,
identical source text in the HTTP route and in
MCPServer.handleGetTokenPriceByAddress:
`if (localization !== undefined) params.localization = localization`. -/
def tokenOptParams (o : TokenOptions) : QueryMap :=
  (if o.localization ≠ JSVal.undef then [("localization", o.localization)] else [])
    ++ (if o.tickers ≠ JSVal.undef then [("tickers", o.tickers)] else [])
    ++ (if o.market_data ≠ JSVal.undef then [("market_data", o.market_data)] else [])
    ++ (if o.community_data ≠ JSVal.undef then [("community_data", o.community_data)] else [])
    ++ (if o.developer_data ≠ JSVal.undef then [("developer_data", o.developer_data)] else [])
    ++ (if o.sparkline ≠ JSVal.undef then [("sparkline", o.sparkline)] else [])

/-- HTTP route GET /simple/price (src/routes/coingecko.routes.ts):
validates `if (!ids || !vs_currencies)` with a 400 body, otherwise builds
the params, calls the upstream, and answers 200 with
`{success, data, parameters}` or 500 with `{error, message}`. -/
def httpSimplePrice (fetch : Fetch) (i : SimplePriceInput) : HttpResult :=
  if !truthy i.ids || !truthy i.vs_currencies then
    { status := 400
      body := HttpBody.validationError "Missing required parameters" ["ids", "vs_currencies"]
        "Both 'ids' and 'vs_currencies' are required parameters"
      calls := [] }
  else
    let params := simplePriceHttpParams i
    match callCoinGeckoAPI fetch "/simple/price" (some params) with
    | (Except.ok data, calls) =>
        { status := 200, body := HttpBody.env (Envelope.success data params), calls := calls }
    | (Except.error msg, calls) =>
        { status := 500, body := HttpBody.env (Envelope.failure "Failed to fetch price data" msg)
          calls := calls }

/-- HTTP route GET /search/trending: a bare upstream call; 200 with
`{success, data, message}` or 500 with `{error, message}`. -/
def httpTrending (fetch : Fetch) : HttpResult :=
  match callCoinGeckoAPI fetch "/search/trending" none with
  | (Except.ok data, calls) =>
      { status := 200
        body := HttpBody.env (Envelope.successMsg data "Trending coins fetched successfully")
        calls := calls }
  | (Except.error msg, calls) =>
      { status := 500
        body := HttpBody.env (Envelope.failure "Failed to fetch trending coins" msg)
        calls := calls }

/-- HTTP route GET /coins/list/new: a bare upstream call; 200 with
`{success, data, message}` or 500 with `{error, message}`. -/
def httpNewCoins (fetch : Fetch) : HttpResult :=
  match callCoinGeckoAPI fetch "/coins/list/new" none with
  | (Except.ok data, calls) =>
      { status := 200
        body := HttpBody.env (Envelope.successMsg data "Newly listed coins fetched successfully")
        calls := calls }
  | (Except.error msg, calls) =>
      { status := 500
        body := HttpBody.env (Envelope.failure "Failed to fetch new coins" msg)
        calls := calls }

/-- HTTP route GET /coins/:chainId/contract/:tokenAddress: validates the
path parameters (`if (!chainId || !tokenAddress)`, strings from the path),
builds the optional params, passes the params object only when non-empty,
and echoes `{chainId, tokenAddress, ...params}` on success. -/
def httpTokenByAddress (fetch : Fetch) (chainId tokenAddress : String) (o : TokenOptions) :
    HttpResult :=
  if chainId = "" ∨ tokenAddress = "" then
    { status := 400
      body := HttpBody.validationError "Missing required path parameters" ["chainId", "tokenAddress"]
        "Both 'chainId' and 'tokenAddress' are required in the URL path"
      calls := [] }
  else
    let params := tokenOptParams o
    let endpoint := "/coins/" ++ chainId ++ "/contract/" ++ tokenAddress
    match callCoinGeckoAPI fetch endpoint (if params.length > 0 then some params else none) with
    | (Except.ok data, calls) =>
        { status := 200
          body := HttpBody.env (Envelope.success data
            ([("chainId", JSVal.str chainId), ("tokenAddress", JSVal.str tokenAddress)] ++ params))
          calls := calls }
    | (Except.error msg, calls) =>
        { status := 500
          body := HttpBody.env (Envelope.failure "Failed to fetch token data" msg)
          calls := calls }

/-- MCPServer.handleGetSimplePrice (src/server.ts): no validation of the
required inputs; builds the params and calls the upstream inside the
try/catch, returning the success or failure envelope. -/
def mcpGetSimplePrice (fetch : Fetch) (i : SimplePriceInput) : Envelope × List UpstreamCall :=
  let params := simplePriceMcpParams i
  match callCoinGeckoAPI fetch "/simple/price" (some params) with
  | (Except.ok data, calls) => (Envelope.success data params, calls)
  | (Except.error msg, calls) => (Envelope.failure "Failed to fetch price data" msg, calls)

/-- MCPServer.handleGetTrendingCoins. -/
def mcpGetTrendingCoins (fetch : Fetch) : Envelope × List UpstreamCall :=
  match callCoinGeckoAPI fetch "/search/trending" none with
  | (Except.ok data, calls) =>
      (Envelope.successMsg data "Trending coins fetched successfully", calls)
  | (Except.error msg, calls) =>
      (Envelope.failure "Failed to fetch trending coins" msg, calls)

/-- MCPServer.handleGetNewCoins. -/
def mcpGetNewCoins (fetch : Fetch) : Envelope × List UpstreamCall :=
  match callCoinGeckoAPI fetch "/coins/list/new" none with
  | (Except.ok data, calls) =>
      (Envelope.successMsg data "Newly listed coins fetched successfully", calls)
  | (Except.error msg, calls) =>
      (Envelope.failure "Failed to fetch new coins" msg, calls)

/-- MCPServer.handleGetTokenPriceByAddress: no validation of the required
inputs; interpolates them into the endpoint template (a JavaScript template
literal stringifies them), builds the optional params, and passes the params
object only when non-empty. -/
def mcpGetTokenPriceByAddress (fetch : Fetch) (chainId tokenAddress : JSVal) (o : TokenOptions) :
    Envelope × List UpstreamCall :=
  let params := tokenOptParams o
  let endpoint := "/coins/" ++ jsToString chainId ++ "/contract/" ++ jsToString tokenAddress
  match callCoinGeckoAPI fetch endpoint (if params.length > 0 then some params else none) with
  | (Except.ok data, calls) =>
      (Envelope.success data
        ([("chainId", chainId), ("tokenAddress", tokenAddress)] ++ params), calls)
  | (Except.error msg, calls) =>
      (Envelope.failure "Failed to fetch token data" msg, calls)

/-- The `arguments` object of a tool call, as each handler destructures it:
a simple-price-shaped object, an empty object, or a token-shaped object.
Reading a property the object does not carry yields `undefined`. -/
inductive ToolArgs where
  | simplePrice : SimplePriceInput → ToolArgs
  | empty : ToolArgs
  | token : JSVal → JSVal → TokenOptions → ToolArgs

/-- The simple-price fields of an arguments object (a property absent from
the object reads as `undefined`, as the `args as any` cast allows). -/
def ToolArgs.fieldsAsSimplePrice : ToolArgs → SimplePriceInput
  | ToolArgs.simplePrice i => i
  | _ => ⟨JSVal.undef, JSVal.undef, JSVal.undef, JSVal.undef, JSVal.undef, JSVal.undef, JSVal.undef⟩

/-- The token fields of an arguments object. -/
def ToolArgs.fieldsAsToken : ToolArgs → JSVal × JSVal × TokenOptions
  | ToolArgs.token c t o => (c, t, o)
  | _ => (JSVal.undef, JSVal.undef, noTokenOptions)

/-- MCPServer.callTool, the dispatch the ToolController facade uses: a
switch on the tool name that throws `Unknown tool: <name>` in the default
case. -/
def callTool (fetch : Fetch) (name : String) (args : ToolArgs) :
    Except String (Envelope × List UpstreamCall) :=
  if name = "get_simple_price" then
    Except.ok (mcpGetSimplePrice fetch args.fieldsAsSimplePrice)
  else if name = "get_trending_coins" then
    Except.ok (mcpGetTrendingCoins fetch)
  else if name = "get_new_coins" then
    Except.ok (mcpGetNewCoins fetch)
  else if name = "get_token_price_by_address" then
    let ct := args.fieldsAsToken
    Except.ok (mcpGetTokenPriceByAddress fetch ct.1 ct.2.1 ct.2.2)
  else
    Except.error ("Unknown tool: " ++ name)

/-- What the protocol's tool-call request handler answers: a result whose
single text content block serialises the operation envelope, or — for an
unrecognised tool name — a text content block with an error message (the
call itself succeeds at the transport level; nothing is thrown). -/
inductive ToolCallOutcome where
  | result : Envelope → List UpstreamCall → ToolCallOutcome
  | unknownTool : String → ToolCallOutcome

/-- The CallToolRequestSchema handler (src/server.ts): a switch on the tool
name over the four handlers, whose default returns the
`Error: Unknown tool <name>` text content block. -/
def handleCallToolRequest (fetch : Fetch) (name : String) (args : ToolArgs) : ToolCallOutcome :=
  if name = "get_simple_price" then
    let r := mcpGetSimplePrice fetch args.fieldsAsSimplePrice
    ToolCallOutcome.result r.1 r.2
  else if name = "get_trending_coins" then
    let r := mcpGetTrendingCoins fetch
    ToolCallOutcome.result r.1 r.2
  else if name = "get_new_coins" then
    let r := mcpGetNewCoins fetch
    ToolCallOutcome.result r.1 r.2
  else if name = "get_token_price_by_address" then
    let ct := args.fieldsAsToken
    let r := mcpGetTokenPriceByAddress fetch ct.1 ct.2.1 ct.2.2
    ToolCallOutcome.result r.1 r.2
  else
    ToolCallOutcome.unknownTool ("Error: Unknown tool " ++ name)

/-- ToolController.getSimplePrice (src/controllers/tool.controller.ts):
builds the arguments object with every key present and delegates to
callTool "get_simple_price". -/
def toolControllerGetSimplePrice (fetch : Fetch)
    (ids vs_currencies include_market_cap include_24hr_vol include_24hr_change
      include_last_updated_at precision : JSVal) :
    Except String (Envelope × List UpstreamCall) :=
  callTool fetch "get_simple_price"
    (ToolArgs.simplePrice ⟨ids, vs_currencies, include_market_cap, include_24hr_vol,
      include_24hr_change, include_last_updated_at, precision⟩)

/-- ToolController.getTrendingCoins. -/
def toolControllerGetTrendingCoins (fetch : Fetch) :
    Except String (Envelope × List UpstreamCall) :=
  callTool fetch "get_trending_coins" ToolArgs.empty

/-- ToolController.getNewCoins. -/
def toolControllerGetNewCoins (fetch : Fetch) :
    Except String (Envelope × List UpstreamCall) :=
  callTool fetch "get_new_coins" ToolArgs.empty

/-- ToolController.getTokenPriceByAddress. -/
def toolControllerGetTokenPriceByAddress (fetch : Fetch)
    (chainId tokenAddress : JSVal) (o : TokenOptions) :
    Except String (Envelope × List UpstreamCall) :=
  callTool fetch "get_token_price_by_address" (ToolArgs.token chainId tokenAddress o)

/-- The serialised text of a resource's contents: a JSON value (the model
keeps the value rather than its rendering) or a plain-text document. -/
inductive ResourceText where
  | json : Json → ResourceText
  | plain : String → ResourceText

/-- One entry of a resource read's `contents` array. -/
structure ResourceContents where
  uri : String
  mimeType : String
  text : ResourceText

/-- `trendingData.coins?.length || 0` of the market-status resource. -/
def trendingCoinsCount : Json → Int
  | Json.obj fields =>
      match fields.lookup "coins" with
      | some (Json.arr xs) => Int.ofNat xs.length
      | _ => 0
  | _ => 0

/-- MCPServer.handleMarketStatusResource: two upstream calls (trending, then
a fixed simple-price query); any failure is rethrown as
`Failed to fetch market status: Error: <message>`.  `now` stands for the
impure `new Date().toISOString()`. -/
def handleMarketStatusResource (fetch : Fetch) (now : String) :
    Except String ResourceContents × List UpstreamCall :=
  match callCoinGeckoAPI fetch "/search/trending" none with
  | (Except.error msg, calls) =>
      (Except.error ("Failed to fetch market status: Error: " ++ msg), calls)
  | (Except.ok trendingData, calls1) =>
      match callCoinGeckoAPI fetch "/simple/price"
          (some [("ids", JSVal.str "bitcoin,ethereum"), ("vs_currencies", JSVal.str "usd"),
            ("include_market_cap", JSVal.str "true"), ("include_24hr_vol", JSVal.str "true"),
            ("include_24hr_change", JSVal.str "true")]) with
      | (Except.error msg, calls2) =>
          (Except.error ("Failed to fetch market status: Error: " ++ msg), calls1 ++ calls2)
      | (Except.ok priceData, calls2) =>
          (Except.ok
            { uri := "coingecko://market/status"
              mimeType := "application/json"
              text := ResourceText.json (Json.obj
                [("status", Json.str "active"), ("timestamp", Json.str now),
                  ("topCoins", priceData),
                  ("trendingCount", Json.num (trendingCoinsCount trendingData)),
                  ("summary", Json.str "Live crypto market data from CoinGecko")]) },
            calls1 ++ calls2)

/-- MCPServer.handleTrendingCoinsResource: rethrows failures as
`Failed to fetch trending coins: Error: <message>`. -/
def handleTrendingCoinsResource (fetch : Fetch) :
    Except String ResourceContents × List UpstreamCall :=
  match callCoinGeckoAPI fetch "/search/trending" none with
  | (Except.ok data, calls) =>
      (Except.ok
        { uri := "coingecko://trending/coins", mimeType := "application/json"
          text := ResourceText.json data }, calls)
  | (Except.error msg, calls) =>
      (Except.error ("Failed to fetch trending coins: Error: " ++ msg), calls)

/-- MCPServer.handleNewCoinsResource. -/
def handleNewCoinsResource (fetch : Fetch) :
    Except String ResourceContents × List UpstreamCall :=
  match callCoinGeckoAPI fetch "/coins/list/new" none with
  | (Except.ok data, calls) =>
      (Except.ok
        { uri := "coingecko://new/coins", mimeType := "application/json"
          text := ResourceText.json data }, calls)
  | (Except.error msg, calls) =>
      (Except.error ("Failed to fetch new coins: Error: " ++ msg), calls)

/-- The static text document of MCPServer.handleApiInfoResource. -/
def apiInfoText : String :=
  "CoinGecko API Information\n=============================\n\nBase URL: https://api.coingecko.com/api/v3\n\nAvailable Tools:\n1. get_simple_price - Get current prices for cryptocurrencies\n   Endpoint: /simple/price\n   Required: ids, vs_currencies\n   \n2. get_trending_coins - Get trending cryptocurrencies\n   Endpoint: /search/trending\n   \n3. get_new_coins - Get newly listed coins\n   Endpoint: /coins/list/new\n   \n4. get_token_price_by_address - Get token info by contract address\n   Endpoint: /coins/\x7bchainId\x7d/contract/\x7btokenAddress\x7d\n   Required: chainId, tokenAddress\n\nSupported Blockchains:\n- ethereum\n- polygon-pos\n- binance-smart-chain\n- avalanche\n- arbitrum-one\n- optimistic-ethereum\n- base\n- And many more...\n\nRate Limits:\n- Demo API: 30 calls/minute\n- Pro API: Higher limits available\n\nAuthentication:\n- API Key via x-cg-demo-api-key header\n"

/-- MCPServer.handleApiInfoResource: a static plain-text resource with no
upstream call. -/
def handleApiInfoResource : Except String ResourceContents × List UpstreamCall :=
  (Except.ok
    { uri := "coingecko://api/info", mimeType := "text/plain"
      text := ResourceText.plain apiInfoText }, [])

/-- The ReadResourceRequestSchema handler: a switch on the URI over the four
resource handlers, whose default throws `Unknown resource: <uri>` (the call
fails; no structured envelope is returned). -/
def handleReadResource (fetch : Fetch) (now : String) (uri : String) :
    Except String ResourceContents × List UpstreamCall :=
  if uri = "coingecko://market/status" then handleMarketStatusResource fetch now
  else if uri = "coingecko://trending/coins" then handleTrendingCoinsResource fetch
  else if uri = "coingecko://new/coins" then handleNewCoinsResource fetch
  else if uri = "coingecko://api/info" then handleApiInfoResource
  else (Except.error ("Unknown resource: " ++ uri), [])

/-- One message of a prompt result. -/
structure PromptMessage where
  role : String
  text : String
deriving DecidableEq, Repr

/-- The argument object of a get-prompt request; an absent argument (or an
absent object altogether) reads every field as `undefined`. -/
structure PromptArgs where
  tokens : JSVal := JSVal.undef
  currencies : JSVal := JSVal.undef
  chain : JSVal := JSVal.undef
  address : JSVal := JSVal.undef
deriving DecidableEq, Repr

/-- MCPServer.handleCryptoPriceCheckPrompt:
`args?.tokens || "bitcoin,ethereum,solana"` and
`args?.currencies || "usd,eur"`, interpolated into the message text. -/
def handleCryptoPriceCheckPrompt (tokens currencies : JSVal) :
    Except String (List PromptMessage) :=
  let t := if truthy tokens then jsToString tokens else "bitcoin,ethereum,solana"
  let c := if truthy currencies then jsToString currencies else "usd,eur"
  Except.ok [{ role := "user"
               text := "Please check the current prices for " ++ t ++ " in " ++ c ++
                 ". Use the get_simple_price tool with these parameters." }]

/-- MCPServer.handleMarketAnalysisPrompt: a fixed message, no arguments. -/
def handleMarketAnalysisPrompt : Except String (List PromptMessage) :=
  Except.ok [{ role := "user"
               text := "Please provide a comprehensive crypto market analysis. First, get the trending coins using get_trending_coins, then fetch the newly listed coins using get_new_coins. Analyze the data and provide insights about current market trends." }]

/-- MCPServer.handleTokenResearchPrompt: `args?.chain || "ethereum"`,
then `if (!address) throw new Error("Token address is required for token
research")`, otherwise the interpolated message. -/
def handleTokenResearchPrompt (chain address : JSVal) :
    Except String (List PromptMessage) :=
  let c := if truthy chain then chain else JSVal.str "ethereum"
  if !truthy address then
    Except.error "Token address is required for token research"
  else
    Except.ok [{ role := "user"
                 text := "Please research the token at address " ++ jsToString address ++
                   " on " ++ jsToString c ++
                   " blockchain. Use the get_token_price_by_address tool with market_data=true to get comprehensive information including price, market cap, volume, and other key metrics." }]

/-- The GetPromptRequestSchema handler: a switch on the prompt name whose
default throws `Unknown prompt: <name>`. -/
def handleGetPromptRequest (name : String) (a : PromptArgs) :
    Except String (List PromptMessage) :=
  if name = "crypto_price_check" then handleCryptoPriceCheckPrompt a.tokens a.currencies
  else if name = "market_analysis" then handleMarketAnalysisPrompt
  else if name = "token_research" then handleTokenResearchPrompt a.chain a.address
  else Except.error ("Unknown prompt: " ++ name)

/-- The process environment variables the Payment Gate consumes. -/
structure Env where
  FACILITATOR_URL : Option String
  ADDRESS : Option String

/-- Modelled from the spec: getFacilitatorUrl of config/payment.config.ts
(the file is not under src/; the spec and the repository guide give it as
`process.env.FACILITATOR_URL || null`, so an empty value counts as absent). -/
def getFacilitatorUrl (env : Env) : Option String :=
  match env.FACILITATOR_URL with
  | some s => if s = "" then none else some s
  | none => none

/-- Modelled from the spec: getPaymentAddress of config/payment.config.ts,
`process.env.ADDRESS || null`. -/
def getPaymentAddress (env : Env) : Option String :=
  match env.ADDRESS with
  | some s => if s = "" then none else some s
  | none => none

/-- Modelled from the spec: isPaymentConfigured of config/payment.config.ts,
`!!(getFacilitatorUrl() && getPaymentAddress())`. -/
def isPaymentConfigured (env : Env) : Bool :=
  (getFacilitatorUrl env).isSome && (getPaymentAddress env).isSome

/-- Modelled from the spec: the static route-to-price table passed to
paymentMiddleware in src/index.ts; the route keys are those of index.ts and
each price is the PAYMENT_CONFIG per-call price the spec and repository
guide state ($0.001 on base-sepolia). -/
def paymentRouteTable : List (String × String) :=
  [("GET /mcp/simple/price", "$0.001"),
   ("GET /mcp/search/trending", "$0.001"),
   ("GET /mcp/coins/list/new", "$0.001"),
   ("GET /mcp/coins/:chainId/contract/:tokenAddress", "$0.001"),
   ("GET /mcp", "$0.001")]

/-- One layer of the Express application, in `app.use` order. -/
inductive AppLayer where
  | cors : AppLayer
  | jsonBody : AppLayer
  | payment : String → List (String × String) → String → AppLayer
  | healthRoutes : AppLayer
  | mcpRoutes : AppLayer
  | coingeckoRoutes : AppLayer
  | errorHandlerLayer : AppLayer
deriving DecidableEq, Repr

/-- The middleware stack src/index.ts installs at startup: cors and the JSON
body parser, then — only when `facilitatorUrl && payTo` — the payment
middleware with its static route table, then the route tables and the error
handler.  Nothing mutates this list after startup. -/
def appLayers (env : Env) : List AppLayer :=
  [AppLayer.cors, AppLayer.jsonBody]
    ++ (match getFacilitatorUrl env, getPaymentAddress env with
        | some facilitatorUrl, some payTo =>
            [AppLayer.payment payTo paymentRouteTable facilitatorUrl]
        | _, _ => [])
    ++ [AppLayer.healthRoutes, AppLayer.mcpRoutes, AppLayer.coingeckoRoutes,
        AppLayer.errorHandlerLayer]

/-- Whether a payment layer is installed in the stack. -/
def paymentInstalled (layers : List AppLayer) : Bool :=
  layers.any fun layer =>
    match layer with
    | AppLayer.payment _ _ _ => true
    | _ => false

/-! ## Helper lemmas and concrete fetch oracles -/

/-- A fetch oracle whose every response is HTTP 200 with an empty object. -/
def okFetch : Fetch := fun _ => FetchOutcome.response ⟨200, "OK", Json.obj []⟩

/-- A fetch oracle whose every response is HTTP 404 Not Found. -/
def notFoundFetch : Fetch := fun _ => FetchOutcome.response ⟨404, "Not Found", Json.null⟩

/-- A fetch oracle that always fails at the network level. -/
def downFetch : Fetch := fun _ => FetchOutcome.networkFailure "fetch failed"

/-- A value that is either absent or a non-empty string: the shape every
HTTP query-string value takes in practice.  On such values the HTTP route
and the MCP handler build identical optional entries. -/
def isStrOpt : JSVal → Bool
  | JSVal.undef => true
  | JSVal.str s => !(s == "")
  | _ => false

/-- The HTTP status an envelope maps to on the HTTP surface: 500 for a
failure, 200 otherwise. -/
def envStatus : Envelope → Nat
  | Envelope.failure _ _ => 500
  | _ => 200

/-- Operational form of the Upstream Client: one fetch of the built request,
and the result determined by the outcome. -/
theorem callCoinGeckoAPI_eq (fetch : Fetch) (e : String) (p : Option QueryMap) :
    callCoinGeckoAPI fetch e p =
      ((match fetch (mkCall e p) with
        | FetchOutcome.networkFailure msg => Except.error msg
        | FetchOutcome.response resp =>
            if respOk resp then Except.ok resp.body
            else Except.error
              ("CoinGecko API error: " ++ toString resp.status ++ " " ++ resp.statusText)),
       [mkCall e p]) := by
  unfold callCoinGeckoAPI
  dsimp only
  cases fetch (mkCall e p) with
  | networkFailure m => rfl
  | response r => by_cases h : respOk r <;> simp [h]

/-- The Upstream Client performs exactly the one built call. -/
theorem callCoinGeckoAPI_calls (fetch : Fetch) (e : String) (p : Option QueryMap) :
    (callCoinGeckoAPI fetch e p).2 = [mkCall e p] := by
  rw [callCoinGeckoAPI_eq]

/-- Membership in the built query string. -/
theorem mem_buildQuery (ps : QueryMap) (k v : String) :
    (k, v) ∈ buildQuery ps ↔
      ∃ j : JSVal, (k, j) ∈ ps ∧
        ¬(j = JSVal.undef ∨ j = JSVal.null ∨ j = JSVal.str "") ∧ v = jsToString j := by
  simp only [buildQuery, List.mem_filterMap]
  constructor
  · rintro ⟨⟨k2, j⟩, ha, hfa⟩
    dsimp only at hfa
    split at hfa
    · exact absurd hfa (by simp)
    · rename_i hcond
      injection hfa with heq
      injection heq with hk hv
      subst hk
      exact ⟨j, ha, hcond, hv.symm⟩
  · rintro ⟨j, hj, hcond, rfl⟩
    exact ⟨(k, j), hj, by simp [hcond]⟩

/-- Operational form of MCPServer.handleGetSimplePrice. -/
theorem mcpGetSimplePrice_eq (fetch : Fetch) (i : SimplePriceInput) :
    mcpGetSimplePrice fetch i =
      (match (callCoinGeckoAPI fetch "/simple/price" (some (simplePriceMcpParams i))).1 with
       | Except.ok d => Envelope.success d (simplePriceMcpParams i)
       | Except.error m => Envelope.failure "Failed to fetch price data" m,
       [mkCall "/simple/price" (some (simplePriceMcpParams i))]) := by
  unfold mcpGetSimplePrice
  dsimp only
  rcases hq : callCoinGeckoAPI fetch "/simple/price" (some (simplePriceMcpParams i))
    with ⟨res, calls⟩
  have h2 : calls = [mkCall "/simple/price" (some (simplePriceMcpParams i))] :=
    (congrArg Prod.snd hq).symm.trans
      (callCoinGeckoAPI_calls fetch "/simple/price" (some (simplePriceMcpParams i)))
  subst h2
  cases res <;> rfl

/-- Operational form of MCPServer.handleGetTrendingCoins. -/
theorem mcpGetTrendingCoins_eq (fetch : Fetch) :
    mcpGetTrendingCoins fetch =
      (match (callCoinGeckoAPI fetch "/search/trending" none).1 with
       | Except.ok d => Envelope.successMsg d "Trending coins fetched successfully"
       | Except.error m => Envelope.failure "Failed to fetch trending coins" m,
       [mkCall "/search/trending" none]) := by
  unfold mcpGetTrendingCoins
  rcases hq : callCoinGeckoAPI fetch "/search/trending" none with ⟨res, calls⟩
  have h2 : calls = [mkCall "/search/trending" none] :=
    (congrArg Prod.snd hq).symm.trans (callCoinGeckoAPI_calls fetch "/search/trending" none)
  subst h2
  cases res <;> rfl

/-- Operational form of MCPServer.handleGetNewCoins. -/
theorem mcpGetNewCoins_eq (fetch : Fetch) :
    mcpGetNewCoins fetch =
      (match (callCoinGeckoAPI fetch "/coins/list/new" none).1 with
       | Except.ok d => Envelope.successMsg d "Newly listed coins fetched successfully"
       | Except.error m => Envelope.failure "Failed to fetch new coins" m,
       [mkCall "/coins/list/new" none]) := by
  unfold mcpGetNewCoins
  rcases hq : callCoinGeckoAPI fetch "/coins/list/new" none with ⟨res, calls⟩
  have h2 : calls = [mkCall "/coins/list/new" none] :=
    (congrArg Prod.snd hq).symm.trans (callCoinGeckoAPI_calls fetch "/coins/list/new" none)
  subst h2
  cases res <;> rfl

/-- Operational form of MCPServer.handleGetTokenPriceByAddress. -/
theorem mcpGetTokenPriceByAddress_eq (fetch : Fetch) (cj tj : JSVal) (o : TokenOptions) :
    mcpGetTokenPriceByAddress fetch cj tj o =
      (match (callCoinGeckoAPI fetch
          ("/coins/" ++ jsToString cj ++ "/contract/" ++ jsToString tj)
          (if (tokenOptParams o).length > 0 then some (tokenOptParams o) else none)).1 with
       | Except.ok d =>
           Envelope.success d ([("chainId", cj), ("tokenAddress", tj)] ++ tokenOptParams o)
       | Except.error m => Envelope.failure "Failed to fetch token data" m,
       [mkCall ("/coins/" ++ jsToString cj ++ "/contract/" ++ jsToString tj)
         (if (tokenOptParams o).length > 0 then some (tokenOptParams o) else none)]) := by
  unfold mcpGetTokenPriceByAddress
  dsimp only
  rcases hq : callCoinGeckoAPI fetch
      ("/coins/" ++ jsToString cj ++ "/contract/" ++ jsToString tj)
      (if (tokenOptParams o).length > 0 then some (tokenOptParams o) else none) with ⟨res, calls⟩
  have h2 : calls = [mkCall ("/coins/" ++ jsToString cj ++ "/contract/" ++ jsToString tj)
      (if (tokenOptParams o).length > 0 then some (tokenOptParams o) else none)] :=
    (congrArg Prod.snd hq).symm.trans (callCoinGeckoAPI_calls fetch
      ("/coins/" ++ jsToString cj ++ "/contract/" ++ jsToString tj)
      (if (tokenOptParams o).length > 0 then some (tokenOptParams o) else none))
  subst h2
  cases res <;> rfl

/-- The upstream calls performed by MCPServer.handleGetSimplePrice: always
exactly one, whatever the inputs. -/
theorem mcpGetSimplePrice_calls (fetch : Fetch) (i : SimplePriceInput) :
    (mcpGetSimplePrice fetch i).2 = [mkCall "/simple/price" (some (simplePriceMcpParams i))] := by
  rw [mcpGetSimplePrice_eq]

/-- The GET /simple/price route short-circuits with the 400 validation body
and no upstream call when a required input is falsy. -/
theorem httpSimplePrice_invalid (fetch : Fetch) (i : SimplePriceInput)
    (h : truthy i.ids = false ∨ truthy i.vs_currencies = false) :
    httpSimplePrice fetch i =
      ⟨400, HttpBody.validationError "Missing required parameters" ["ids", "vs_currencies"]
        "Both 'ids' and 'vs_currencies' are required parameters", []⟩ := by
  unfold httpSimplePrice
  rw [if_pos (by rcases h with h | h <;> simp [h])]

/-- The token-by-address route short-circuits with the 400 validation body
and no upstream call when a path parameter is empty. -/
theorem httpTokenByAddress_invalid (fetch : Fetch) (c t : String) (o : TokenOptions)
    (h : c = "" ∨ t = "") :
    httpTokenByAddress fetch c t o =
      ⟨400, HttpBody.validationError "Missing required path parameters" ["chainId", "tokenAddress"]
        "Both 'chainId' and 'tokenAddress' are required in the URL path", []⟩ := by
  unfold httpTokenByAddress
  rw [if_pos h]

/-- Operational form of the GET /simple/price route when both required
inputs are truthy. -/
theorem httpSimplePrice_eq (fetch : Fetch) (i : SimplePriceInput)
    (h1 : truthy i.ids = true) (h2 : truthy i.vs_currencies = true) :
    httpSimplePrice fetch i =
      match (callCoinGeckoAPI fetch "/simple/price" (some (simplePriceHttpParams i))).1 with
      | Except.ok d =>
          ⟨200, HttpBody.env (Envelope.success d (simplePriceHttpParams i)),
            [mkCall "/simple/price" (some (simplePriceHttpParams i))]⟩
      | Except.error m =>
          ⟨500, HttpBody.env (Envelope.failure "Failed to fetch price data" m),
            [mkCall "/simple/price" (some (simplePriceHttpParams i))]⟩ := by
  unfold httpSimplePrice
  rw [if_neg (by simp [h1, h2])]
  dsimp only
  rcases hq : callCoinGeckoAPI fetch "/simple/price" (some (simplePriceHttpParams i))
    with ⟨res, calls⟩
  have h3 : calls = [mkCall "/simple/price" (some (simplePriceHttpParams i))] :=
    (congrArg Prod.snd hq).symm.trans
      (callCoinGeckoAPI_calls fetch "/simple/price" (some (simplePriceHttpParams i)))
  subst h3
  cases res <;> rfl

/-- Operational form of the GET /search/trending route. -/
theorem httpTrending_eq (fetch : Fetch) :
    httpTrending fetch =
      match (callCoinGeckoAPI fetch "/search/trending" none).1 with
      | Except.ok d =>
          ⟨200, HttpBody.env (Envelope.successMsg d "Trending coins fetched successfully"),
            [mkCall "/search/trending" none]⟩
      | Except.error m =>
          ⟨500, HttpBody.env (Envelope.failure "Failed to fetch trending coins" m),
            [mkCall "/search/trending" none]⟩ := by
  unfold httpTrending
  rcases hq : callCoinGeckoAPI fetch "/search/trending" none with ⟨res, calls⟩
  have h2 : calls = [mkCall "/search/trending" none] :=
    (congrArg Prod.snd hq).symm.trans (callCoinGeckoAPI_calls fetch "/search/trending" none)
  subst h2
  cases res <;> rfl

/-- Operational form of the GET /coins/list/new route. -/
theorem httpNewCoins_eq (fetch : Fetch) :
    httpNewCoins fetch =
      match (callCoinGeckoAPI fetch "/coins/list/new" none).1 with
      | Except.ok d =>
          ⟨200, HttpBody.env (Envelope.successMsg d "Newly listed coins fetched successfully"),
            [mkCall "/coins/list/new" none]⟩
      | Except.error m =>
          ⟨500, HttpBody.env (Envelope.failure "Failed to fetch new coins" m),
            [mkCall "/coins/list/new" none]⟩ := by
  unfold httpNewCoins
  rcases hq : callCoinGeckoAPI fetch "/coins/list/new" none with ⟨res, calls⟩
  have h2 : calls = [mkCall "/coins/list/new" none] :=
    (congrArg Prod.snd hq).symm.trans (callCoinGeckoAPI_calls fetch "/coins/list/new" none)
  subst h2
  cases res <;> rfl

/-- Operational form of the token-by-address route when the path parameters
are non-empty. -/
theorem httpTokenByAddress_eq (fetch : Fetch) (c t : String) (o : TokenOptions)
    (hc : c ≠ "") (ht : t ≠ "") :
    httpTokenByAddress fetch c t o =
      match (callCoinGeckoAPI fetch ("/coins/" ++ c ++ "/contract/" ++ t)
          (if (tokenOptParams o).length > 0 then some (tokenOptParams o) else none)).1 with
      | Except.ok d =>
          ⟨200, HttpBody.env (Envelope.success d
            ([("chainId", JSVal.str c), ("tokenAddress", JSVal.str t)] ++ tokenOptParams o)),
            [mkCall ("/coins/" ++ c ++ "/contract/" ++ t)
              (if (tokenOptParams o).length > 0 then some (tokenOptParams o) else none)]⟩
      | Except.error m =>
          ⟨500, HttpBody.env (Envelope.failure "Failed to fetch token data" m),
            [mkCall ("/coins/" ++ c ++ "/contract/" ++ t)
              (if (tokenOptParams o).length > 0 then some (tokenOptParams o) else none)]⟩ := by
  unfold httpTokenByAddress
  rw [if_neg (by simp [hc, ht])]
  dsimp only
  rcases hq : callCoinGeckoAPI fetch ("/coins/" ++ c ++ "/contract/" ++ t)
      (if (tokenOptParams o).length > 0 then some (tokenOptParams o) else none) with ⟨res, calls⟩
  have h2 : calls = [mkCall ("/coins/" ++ c ++ "/contract/" ++ t)
      (if (tokenOptParams o).length > 0 then some (tokenOptParams o) else none)] :=
    (congrArg Prod.snd hq).symm.trans (callCoinGeckoAPI_calls fetch
      ("/coins/" ++ c ++ "/contract/" ++ t)
      (if (tokenOptParams o).length > 0 then some (tokenOptParams o) else none))
  subst h2
  cases res <;> rfl

/-- On an absent-or-non-empty-string value, the truthiness-guarded raw entry
of the HTTP route coincides with the definedness-guarded stringified entry
of the MCP handler. -/
theorem strOpt_entry (k : String) (v : JSVal) (h : isStrOpt v = true) :
    (if truthy v then [(k, v)] else []) =
      (if v ≠ JSVal.undef then [(k, JSVal.str (jsToString v))] else []) := by
  cases v with
  | undef => simp [truthy]
  | null => simp [isStrOpt] at h
  | bool b => simp [isStrOpt] at h
  | num n => simp [isStrOpt] at h
  | str s =>
      have hs : ¬ s = "" := by simpa [isStrOpt] using h
      simp [truthy, jsToString, hs]

/-- When every optional input is absent or a non-empty string, both
surfaces build the same price-lookup parameter map. -/
theorem simplePriceParams_eq (i : SimplePriceInput)
    (h1 : isStrOpt i.include_market_cap = true) (h2 : isStrOpt i.include_24hr_vol = true)
    (h3 : isStrOpt i.include_24hr_change = true) (h4 : isStrOpt i.include_last_updated_at = true)
    (h5 : isStrOpt i.precision = true) :
    simplePriceHttpParams i = simplePriceMcpParams i := by
  unfold simplePriceHttpParams simplePriceMcpParams
  rw [strOpt_entry _ _ h1, strOpt_entry _ _ h2, strOpt_entry _ _ h3, strOpt_entry _ _ h4,
    strOpt_entry _ _ h5]

/-! ## C4 -/

/-- C4: the Upstream Client appends to the request exactly the query entries
whose value is defined, non-null and non-empty, stringifying the kept value;
entries that are `undefined`, `null` or the empty string are omitted. -/
theorem upstream_query_filters_empty_entries (fetch : Fetch) (e : String) (ps : QueryMap)
    (k v : String) :
    (callCoinGeckoAPI fetch e (some ps)).2 = [⟨e, buildQuery ps⟩] ∧
    ((k, v) ∈ buildQuery ps ↔
      ∃ j : JSVal, (k, j) ∈ ps ∧ j ≠ JSVal.undef ∧ j ≠ JSVal.null ∧ j ≠ JSVal.str "" ∧
        v = jsToString j) := by
  constructor
  · exact callCoinGeckoAPI_calls fetch e (some ps)
  · rw [mem_buildQuery]
    constructor
    · rintro ⟨j, hj, hcond, rfl⟩
      push_neg at hcond
      exact ⟨j, hj, hcond.1, hcond.2.1, hcond.2.2, rfl⟩
    · rintro ⟨j, hj, h1, h2, h3, rfl⟩
      exact ⟨j, hj, by simp [h1, h2, h3], rfl⟩

/-- Witness for C4 at concrete inputs: a boolean entry is kept stringified,
while an `undefined` entry and an empty-string entry are dropped. -/
theorem upstream_query_filters_empty_entries_witness :
    ("include_market_cap", "true") ∈
      buildQuery [("ids", JSVal.str "bitcoin"), ("include_market_cap", JSVal.bool true),
        ("precision", JSVal.undef), ("vs_currencies", JSVal.str "")] ∧
    (callCoinGeckoAPI okFetch "/simple/price"
        (some [("ids", JSVal.str "bitcoin"), ("include_market_cap", JSVal.bool true),
          ("precision", JSVal.undef), ("vs_currencies", JSVal.str "")])).2 =
      [⟨"/simple/price", [("ids", "bitcoin"), ("include_market_cap", "true")]⟩] := by
  have h := upstream_query_filters_empty_entries okFetch "/simple/price"
    [("ids", JSVal.str "bitcoin"), ("include_market_cap", JSVal.bool true),
      ("precision", JSVal.undef), ("vs_currencies", JSVal.str "")]
    "include_market_cap" "true"
  refine ⟨h.2.mpr ⟨JSVal.bool true, by simp, by simp, by simp, by simp, rfl⟩, ?_⟩
  rw [h.1]
  rfl

/-! ## C5 -/

/-- C5: the Upstream Client performs exactly one outbound fetch per call (no
retry), returns the parsed body on a 2xx status, fails with an error carrying
the numeric status and status text on a non-2xx status (a 404 yields a
failure envelope containing 404), and propagates a network failure as is. -/
theorem upstream_client_single_fetch_status_behavior (fetch : Fetch) (e : String)
    (p : Option QueryMap) (r : HttpResp) (m : String) :
    (callCoinGeckoAPI fetch e p).2 = [mkCall e p] ∧
    (fetch (mkCall e p) = FetchOutcome.response r → respOk r = true →
      (callCoinGeckoAPI fetch e p).1 = Except.ok r.body) ∧
    (fetch (mkCall e p) = FetchOutcome.response r → respOk r = false →
      (callCoinGeckoAPI fetch e p).1 =
        Except.error ("CoinGecko API error: " ++ toString r.status ++ " " ++ r.statusText)) ∧
    (fetch (mkCall e p) = FetchOutcome.networkFailure m →
      (callCoinGeckoAPI fetch e p).1 = Except.error m) ∧
    (respOk r = true ↔ (200 ≤ r.status ∧ r.status ≤ 299)) ∧
    (fetch (mkCall "/search/trending" none) =
        FetchOutcome.response ⟨404, "Not Found", Json.null⟩ →
      httpTrending fetch =
        ⟨500, HttpBody.env (Envelope.failure "Failed to fetch trending coins"
          "CoinGecko API error: 404 Not Found"), [mkCall "/search/trending" none]⟩) := by
  refine ⟨callCoinGeckoAPI_calls fetch e p, ?_, ?_, ?_, ?_, ?_⟩
  · intro h hok
    rw [callCoinGeckoAPI_eq, h]
    simp [hok]
  · intro h hbad
    rw [callCoinGeckoAPI_eq, h]
    simp [hbad]
  · intro h
    rw [callCoinGeckoAPI_eq, h]
  · simp [respOk]
  · intro h
    unfold httpTrending
    rw [callCoinGeckoAPI_eq, h]
    rfl

/-- Witness for C5 at concrete oracles: a 200 response yields the body, a
404 yields the status-carrying error and the 500 failure envelope, and a
network failure propagates its message. -/
theorem upstream_client_single_fetch_status_behavior_witness :
    (callCoinGeckoAPI okFetch "/simple/price" none).1 = Except.ok (Json.obj []) ∧
    (callCoinGeckoAPI notFoundFetch "/search/trending" none).1 =
      Except.error ("CoinGecko API error: " ++ toString (404 : Nat) ++ " " ++ "Not Found") ∧
    (callCoinGeckoAPI downFetch "/coins/list/new" none).1 = Except.error "fetch failed" ∧
    httpTrending notFoundFetch =
      ⟨500, HttpBody.env (Envelope.failure "Failed to fetch trending coins"
        "CoinGecko API error: 404 Not Found"), [mkCall "/search/trending" none]⟩ := by
  have h200 := upstream_client_single_fetch_status_behavior okFetch "/simple/price" none
    ⟨200, "OK", Json.obj []⟩ ""
  have h404 := upstream_client_single_fetch_status_behavior notFoundFetch "/search/trending" none
    ⟨404, "Not Found", Json.null⟩ ""
  have hdown := upstream_client_single_fetch_status_behavior downFetch "/coins/list/new" none
    ⟨404, "Not Found", Json.null⟩ "fetch failed"
  exact ⟨h200.2.1 rfl (by decide), h404.2.2.1 rfl (by decide),
    hdown.2.2.2.1 rfl, h404.2.2.2.2.2 rfl⟩

/-- The upstream calls performed by MCPServer.handleGetTokenPriceByAddress. -/
theorem mcpGetTokenPriceByAddress_calls (fetch : Fetch) (cj tj : JSVal) (o : TokenOptions) :
    (mcpGetTokenPriceByAddress fetch cj tj o).2 =
      [mkCall ("/coins/" ++ jsToString cj ++ "/contract/" ++ jsToString tj)
        (if (tokenOptParams o).length > 0 then some (tokenOptParams o) else none)] := by
  have hcalls := callCoinGeckoAPI_calls fetch
    ("/coins/" ++ jsToString cj ++ "/contract/" ++ jsToString tj)
    (if (tokenOptParams o).length > 0 then some (tokenOptParams o) else none)
  unfold mcpGetTokenPriceByAddress
  dsimp only
  rcases h : callCoinGeckoAPI fetch
      ("/coins/" ++ jsToString cj ++ "/contract/" ++ jsToString tj)
      (if (tokenOptParams o).length > 0 then some (tokenOptParams o) else none) with ⟨res, calls⟩
  have h2 := (congrArg Prod.snd h).symm.trans hcalls
  cases res <;> exact h2

/-- The upstream calls performed by the token-by-address HTTP route when the
path parameters are non-empty. -/
theorem httpTokenByAddress_calls (fetch : Fetch) (c t : String) (o : TokenOptions)
    (hc : c ≠ "") (ht : t ≠ "") :
    (httpTokenByAddress fetch c t o).calls =
      [mkCall ("/coins/" ++ c ++ "/contract/" ++ t)
        (if (tokenOptParams o).length > 0 then some (tokenOptParams o) else none)] := by
  have hcalls := callCoinGeckoAPI_calls fetch ("/coins/" ++ c ++ "/contract/" ++ t)
    (if (tokenOptParams o).length > 0 then some (tokenOptParams o) else none)
  unfold httpTokenByAddress
  rw [if_neg (by simp [hc, ht])]
  dsimp only
  rcases h : callCoinGeckoAPI fetch ("/coins/" ++ c ++ "/contract/" ++ t)
      (if (tokenOptParams o).length > 0 then some (tokenOptParams o) else none) with ⟨res, calls⟩
  have h2 := (congrArg Prod.snd h).symm.trans hcalls
  cases res <;> exact h2

/-! ## C9 -/

/-- C9: with no optional parameter supplied, the token-by-address operation
calls the Upstream Client on the templated path
/coins/(chainId)/contract/(tokenAddress) with no query entry at all: the
protocol handler for every chainId and tokenAddress, and the HTTP route for
every non-empty pair of path parameters. -/
theorem token_by_address_no_query_when_no_options (fetch : Fetch) (c t : String) :
    (mcpGetTokenPriceByAddress fetch (JSVal.str c) (JSVal.str t) noTokenOptions).2 =
      [⟨"/coins/" ++ c ++ "/contract/" ++ t, []⟩] ∧
    (c ≠ "" → t ≠ "" →
      (httpTokenByAddress fetch c t noTokenOptions).calls =
        [⟨"/coins/" ++ c ++ "/contract/" ++ t, []⟩]) := by
  constructor
  · rw [mcpGetTokenPriceByAddress_calls]
    rfl
  · intro hc ht
    rw [httpTokenByAddress_calls fetch c t noTokenOptions hc ht]
    rfl

/-- Witness for C9: GET /coins/ethereum/contract/0xABC with no query
parameters hits the upstream path /coins/ethereum/contract/0xABC with an
empty query string, on both surfaces. -/
theorem token_by_address_no_query_when_no_options_witness :
    (mcpGetTokenPriceByAddress okFetch (JSVal.str "ethereum") (JSVal.str "0xABC")
        noTokenOptions).2 = [⟨"/coins/ethereum/contract/0xABC", []⟩] ∧
    (httpTokenByAddress okFetch "ethereum" "0xABC" noTokenOptions).calls =
      [⟨"/coins/ethereum/contract/0xABC", []⟩] := by
  have h := token_by_address_no_query_when_no_options okFetch "ethereum" "0xABC"
  exact ⟨h.1, h.2 (by decide) (by decide)⟩

/-! ## C1 -/

/-- Counterexample to C1: on the protocol surface, a price lookup whose
required input `ids` is absent does not fail with a validation error — the
Upstream Client fetch is invoked (one call) and, with a 2xx upstream, the
handler even returns a success envelope. -/
theorem mcp_simple_price_missing_ids_calls_upstream :
    (mcpGetSimplePrice okFetch ⟨JSVal.undef, JSVal.str "usd", JSVal.undef, JSVal.undef,
        JSVal.undef, JSVal.undef, JSVal.undef⟩).2.length = 1 ∧
    (mcpGetSimplePrice okFetch ⟨JSVal.undef, JSVal.str "usd", JSVal.undef, JSVal.undef,
        JSVal.undef, JSVal.undef, JSVal.undef⟩).1 =
      Envelope.success (Json.obj []) [("ids", JSVal.undef), ("vs_currencies", JSVal.str "usd")] := by
  constructor <;> rfl

/-- C1 amended: only the HTTP routes validate required inputs — a missing
required input there yields the validation error without any upstream call;
the protocol tool handlers and the facade perform no validation and invoke
the Upstream Client exactly once whatever the inputs. -/
theorem required_input_validation_http_only (fetch : Fetch) (i : SimplePriceInput)
    (c t : String) (cj tj : JSVal) (o : TokenOptions) :
    (truthy i.ids = false ∨ truthy i.vs_currencies = false →
      httpSimplePrice fetch i =
        ⟨400, HttpBody.validationError "Missing required parameters" ["ids", "vs_currencies"]
          "Both 'ids' and 'vs_currencies' are required parameters", []⟩) ∧
    (c = "" ∨ t = "" →
      httpTokenByAddress fetch c t o =
        ⟨400, HttpBody.validationError "Missing required path parameters"
          ["chainId", "tokenAddress"]
          "Both 'chainId' and 'tokenAddress' are required in the URL path", []⟩) ∧
    (mcpGetSimplePrice fetch i).2.length = 1 ∧
    (mcpGetTokenPriceByAddress fetch cj tj o).2.length = 1 ∧
    toolControllerGetSimplePrice fetch i.ids i.vs_currencies i.include_market_cap
      i.include_24hr_vol i.include_24hr_change i.include_last_updated_at i.precision =
      Except.ok (mcpGetSimplePrice fetch i) ∧
    toolControllerGetTokenPriceByAddress fetch cj tj o =
      Except.ok (mcpGetTokenPriceByAddress fetch cj tj o) := by
  refine ⟨httpSimplePrice_invalid fetch i, httpTokenByAddress_invalid fetch c t o, ?_, ?_,
    rfl, rfl⟩
  · rw [mcpGetSimplePrice_calls]
    rfl
  · rw [mcpGetTokenPriceByAddress_calls]
    rfl

/-- Witness for C1's amended statement at concrete inputs. -/
theorem required_input_validation_http_only_witness :
    httpSimplePrice okFetch ⟨JSVal.undef, JSVal.str "usd", JSVal.undef, JSVal.undef,
        JSVal.undef, JSVal.undef, JSVal.undef⟩ =
      ⟨400, HttpBody.validationError "Missing required parameters" ["ids", "vs_currencies"]
        "Both 'ids' and 'vs_currencies' are required parameters", []⟩ ∧
    httpTokenByAddress okFetch "" "0xABC" noTokenOptions =
      ⟨400, HttpBody.validationError "Missing required path parameters"
        ["chainId", "tokenAddress"]
        "Both 'chainId' and 'tokenAddress' are required in the URL path", []⟩ ∧
    (mcpGetSimplePrice okFetch ⟨JSVal.undef, JSVal.str "usd", JSVal.undef, JSVal.undef,
        JSVal.undef, JSVal.undef, JSVal.undef⟩).2.length = 1 := by
  have h := required_input_validation_http_only okFetch
    ⟨JSVal.undef, JSVal.str "usd", JSVal.undef, JSVal.undef, JSVal.undef, JSVal.undef,
      JSVal.undef⟩
    "" "0xABC" JSVal.undef JSVal.undef noTokenOptions
  exact ⟨h.1 (Or.inl rfl), h.2.1 (Or.inl rfl), h.2.2.1⟩

/-! ## C2 -/

/-- Counterexample to C2: at the same input assignment (ids absent,
vs_currencies = "usd") and the same 2xx upstream, the HTTP route fails with
the 400 validation body and performs no upstream call, while the protocol
tool handler returns a success envelope — the surfaces are not behaviorally
identical. -/
theorem surface_outcome_divergence_missing_ids :
    httpSimplePrice okFetch ⟨JSVal.undef, JSVal.str "usd", JSVal.undef, JSVal.undef,
        JSVal.undef, JSVal.undef, JSVal.undef⟩ =
      ⟨400, HttpBody.validationError "Missing required parameters" ["ids", "vs_currencies"]
        "Both 'ids' and 'vs_currencies' are required parameters", []⟩ ∧
    mcpGetSimplePrice okFetch ⟨JSVal.undef, JSVal.str "usd", JSVal.undef, JSVal.undef,
        JSVal.undef, JSVal.undef, JSVal.undef⟩ =
      (Envelope.success (Json.obj []) [("ids", JSVal.undef), ("vs_currencies", JSVal.str "usd")],
        [⟨"/simple/price", [("vs_currencies", "usd")]⟩]) := by
  constructor <;> rfl

/-- C2 amended: the three surfaces are behaviorally identical — same
upstream query, same envelope, same number of upstream calls — for trending
and new listings on every input, and for price lookup and token-by-address
whenever every required input is present and truthy and (for price lookup)
every supplied optional value is a non-empty string; they diverge when a
required input is absent, where the HTTP route validates and the other two
surfaces call the upstream anyway. -/
theorem surface_equivalence_on_present_inputs (fetch : Fetch) (i : SimplePriceInput)
    (c t : String) (o : TokenOptions) :
    (truthy i.ids = true → truthy i.vs_currencies = true →
      isStrOpt i.include_market_cap = true → isStrOpt i.include_24hr_vol = true →
      isStrOpt i.include_24hr_change = true → isStrOpt i.include_last_updated_at = true →
      isStrOpt i.precision = true →
      simplePriceHttpParams i = simplePriceMcpParams i ∧
      httpSimplePrice fetch i =
        ⟨envStatus (mcpGetSimplePrice fetch i).1, HttpBody.env (mcpGetSimplePrice fetch i).1,
          (mcpGetSimplePrice fetch i).2⟩) ∧
    toolControllerGetSimplePrice fetch i.ids i.vs_currencies i.include_market_cap
      i.include_24hr_vol i.include_24hr_change i.include_last_updated_at i.precision =
      Except.ok (mcpGetSimplePrice fetch i) ∧
    httpTrending fetch =
      ⟨envStatus (mcpGetTrendingCoins fetch).1, HttpBody.env (mcpGetTrendingCoins fetch).1,
        (mcpGetTrendingCoins fetch).2⟩ ∧
    toolControllerGetTrendingCoins fetch = Except.ok (mcpGetTrendingCoins fetch) ∧
    httpNewCoins fetch =
      ⟨envStatus (mcpGetNewCoins fetch).1, HttpBody.env (mcpGetNewCoins fetch).1,
        (mcpGetNewCoins fetch).2⟩ ∧
    toolControllerGetNewCoins fetch = Except.ok (mcpGetNewCoins fetch) ∧
    (c ≠ "" → t ≠ "" →
      httpTokenByAddress fetch c t o =
        ⟨envStatus (mcpGetTokenPriceByAddress fetch (JSVal.str c) (JSVal.str t) o).1,
          HttpBody.env (mcpGetTokenPriceByAddress fetch (JSVal.str c) (JSVal.str t) o).1,
          (mcpGetTokenPriceByAddress fetch (JSVal.str c) (JSVal.str t) o).2⟩) ∧
    toolControllerGetTokenPriceByAddress fetch (JSVal.str c) (JSVal.str t) o =
      Except.ok (mcpGetTokenPriceByAddress fetch (JSVal.str c) (JSVal.str t) o) := by
  refine ⟨?_, rfl, ?_, rfl, ?_, rfl, ?_, rfl⟩
  · intro h1 h2 o1 o2 o3 o4 o5
    have hp := simplePriceParams_eq i o1 o2 o3 o4 o5
    refine ⟨hp, ?_⟩
    rw [httpSimplePrice_eq fetch i h1 h2, mcpGetSimplePrice_eq, hp]
    cases (callCoinGeckoAPI fetch "/simple/price" (some (simplePriceMcpParams i))).1 <;> rfl
  · rw [httpTrending_eq, mcpGetTrendingCoins_eq]
    cases (callCoinGeckoAPI fetch "/search/trending" none).1 <;> rfl
  · rw [httpNewCoins_eq, mcpGetNewCoins_eq]
    cases (callCoinGeckoAPI fetch "/coins/list/new" none).1 <;> rfl
  · intro hc ht
    rw [httpTokenByAddress_eq fetch c t o hc ht, mcpGetTokenPriceByAddress_eq]
    have hend : jsToString (JSVal.str c) = c := rfl
    have hend2 : jsToString (JSVal.str t) = t := rfl
    rw [hend, hend2]
    cases (callCoinGeckoAPI fetch ("/coins/" ++ c ++ "/contract/" ++ t)
        (if (tokenOptParams o).length > 0 then some (tokenOptParams o) else none)).1 <;> rfl

/-- Witness for C2's amended statement at a concrete input with both
required inputs present and one optional supplied as a non-empty string. -/
theorem surface_equivalence_on_present_inputs_witness :
    simplePriceHttpParams ⟨JSVal.str "bitcoin", JSVal.str "usd", JSVal.str "true", JSVal.undef,
        JSVal.undef, JSVal.undef, JSVal.undef⟩ =
      simplePriceMcpParams ⟨JSVal.str "bitcoin", JSVal.str "usd", JSVal.str "true", JSVal.undef,
        JSVal.undef, JSVal.undef, JSVal.undef⟩ ∧
    httpSimplePrice okFetch ⟨JSVal.str "bitcoin", JSVal.str "usd", JSVal.str "true", JSVal.undef,
        JSVal.undef, JSVal.undef, JSVal.undef⟩ =
      ⟨envStatus (mcpGetSimplePrice okFetch ⟨JSVal.str "bitcoin", JSVal.str "usd",
          JSVal.str "true", JSVal.undef, JSVal.undef, JSVal.undef, JSVal.undef⟩).1,
        HttpBody.env (mcpGetSimplePrice okFetch ⟨JSVal.str "bitcoin", JSVal.str "usd",
          JSVal.str "true", JSVal.undef, JSVal.undef, JSVal.undef, JSVal.undef⟩).1,
        (mcpGetSimplePrice okFetch ⟨JSVal.str "bitcoin", JSVal.str "usd", JSVal.str "true",
          JSVal.undef, JSVal.undef, JSVal.undef, JSVal.undef⟩).2⟩ ∧
    httpTokenByAddress okFetch "ethereum" "0xABC" noTokenOptions =
      ⟨envStatus (mcpGetTokenPriceByAddress okFetch (JSVal.str "ethereum") (JSVal.str "0xABC")
          noTokenOptions).1,
        HttpBody.env (mcpGetTokenPriceByAddress okFetch (JSVal.str "ethereum")
          (JSVal.str "0xABC") noTokenOptions).1,
        (mcpGetTokenPriceByAddress okFetch (JSVal.str "ethereum") (JSVal.str "0xABC")
          noTokenOptions).2⟩ := by
  have h := surface_equivalence_on_present_inputs okFetch
    ⟨JSVal.str "bitcoin", JSVal.str "usd", JSVal.str "true", JSVal.undef, JSVal.undef,
      JSVal.undef, JSVal.undef⟩ "ethereum" "0xABC" noTokenOptions
  have hsp := h.1 rfl rfl rfl rfl rfl rfl rfl
  exact ⟨hsp.1, hsp.2, h.2.2.2.2.2.2.1 (by decide) (by decide)⟩

/-! ## C3 -/

/-- Counterexample to C3: the trending handler's success envelope is
`{success, data, message}` — it has no `parameters` field, so the claimed
uniform `{success, data, parameters}` shape does not hold for all four
operations. -/
theorem trending_success_envelope_lacks_parameters :
    (mcpGetTrendingCoins okFetch).1 =
      Envelope.successMsg (Json.obj []) "Trending coins fetched successfully" ∧
    Envelope.hasParametersField (mcpGetTrendingCoins okFetch).1 = false ∧
    (httpTrending okFetch).body =
      HttpBody.env (Envelope.successMsg (Json.obj []) "Trending coins fetched successfully") := by
  refine ⟨rfl, rfl, rfl⟩

/-- C3 amended: price lookup and token-by-address return
`{success: true, data, parameters}` on success; trending and new listings
return `{success: true, data, message}` with a fixed message and no
parameters field; all four return `{error: category, message}` on failure;
and the surface adapters pass the envelope through unchanged. -/
theorem envelope_shapes (fetch : Fetch) (i : SimplePriceInput) (cj tj : JSVal)
    (o : TokenOptions) (b : Json) (m : String) :
    ((callCoinGeckoAPI fetch "/simple/price" (some (simplePriceMcpParams i))).1 = Except.ok b →
      (mcpGetSimplePrice fetch i).1 = Envelope.success b (simplePriceMcpParams i)) ∧
    ((callCoinGeckoAPI fetch "/simple/price" (some (simplePriceMcpParams i))).1 =
        Except.error m →
      (mcpGetSimplePrice fetch i).1 = Envelope.failure "Failed to fetch price data" m) ∧
    ((callCoinGeckoAPI fetch ("/coins/" ++ jsToString cj ++ "/contract/" ++ jsToString tj)
        (if (tokenOptParams o).length > 0 then some (tokenOptParams o) else none)).1 =
          Except.ok b →
      (mcpGetTokenPriceByAddress fetch cj tj o).1 =
        Envelope.success b ([("chainId", cj), ("tokenAddress", tj)] ++ tokenOptParams o)) ∧
    ((callCoinGeckoAPI fetch ("/coins/" ++ jsToString cj ++ "/contract/" ++ jsToString tj)
        (if (tokenOptParams o).length > 0 then some (tokenOptParams o) else none)).1 =
          Except.error m →
      (mcpGetTokenPriceByAddress fetch cj tj o).1 =
        Envelope.failure "Failed to fetch token data" m) ∧
    ((callCoinGeckoAPI fetch "/search/trending" none).1 = Except.ok b →
      (mcpGetTrendingCoins fetch).1 =
          Envelope.successMsg b "Trending coins fetched successfully" ∧
        Envelope.hasParametersField (mcpGetTrendingCoins fetch).1 = false) ∧
    ((callCoinGeckoAPI fetch "/search/trending" none).1 = Except.error m →
      (mcpGetTrendingCoins fetch).1 = Envelope.failure "Failed to fetch trending coins" m) ∧
    ((callCoinGeckoAPI fetch "/coins/list/new" none).1 = Except.ok b →
      (mcpGetNewCoins fetch).1 =
          Envelope.successMsg b "Newly listed coins fetched successfully" ∧
        Envelope.hasParametersField (mcpGetNewCoins fetch).1 = false) ∧
    ((callCoinGeckoAPI fetch "/coins/list/new" none).1 = Except.error m →
      (mcpGetNewCoins fetch).1 = Envelope.failure "Failed to fetch new coins" m) ∧
    handleCallToolRequest fetch "get_simple_price" (ToolArgs.simplePrice i) =
      ToolCallOutcome.result (mcpGetSimplePrice fetch i).1 (mcpGetSimplePrice fetch i).2 ∧
    handleCallToolRequest fetch "get_trending_coins" ToolArgs.empty =
      ToolCallOutcome.result (mcpGetTrendingCoins fetch).1 (mcpGetTrendingCoins fetch).2 ∧
    handleCallToolRequest fetch "get_new_coins" ToolArgs.empty =
      ToolCallOutcome.result (mcpGetNewCoins fetch).1 (mcpGetNewCoins fetch).2 ∧
    handleCallToolRequest fetch "get_token_price_by_address" (ToolArgs.token cj tj o) =
      ToolCallOutcome.result (mcpGetTokenPriceByAddress fetch cj tj o).1
        (mcpGetTokenPriceByAddress fetch cj tj o).2 := by
  refine ⟨?_, ?_, ?_, ?_, ?_, ?_, ?_, ?_, rfl, rfl, rfl, rfl⟩
  · intro h
    rw [mcpGetSimplePrice_eq, h]
  · intro h
    rw [mcpGetSimplePrice_eq, h]
  · intro h
    rw [mcpGetTokenPriceByAddress_eq, h]
  · intro h
    rw [mcpGetTokenPriceByAddress_eq, h]
  · intro h
    rw [mcpGetTrendingCoins_eq, h]
    exact ⟨rfl, rfl⟩
  · intro h
    rw [mcpGetTrendingCoins_eq, h]
  · intro h
    rw [mcpGetNewCoins_eq, h]
    exact ⟨rfl, rfl⟩
  · intro h
    rw [mcpGetNewCoins_eq, h]

/-- Witness for C3's amended statement: success shapes at a 2xx oracle and
failure shapes at a 404 oracle. -/
theorem envelope_shapes_witness :
    (mcpGetSimplePrice okFetch ⟨JSVal.str "bitcoin", JSVal.str "usd", JSVal.undef, JSVal.undef,
        JSVal.undef, JSVal.undef, JSVal.undef⟩).1 =
      Envelope.success (Json.obj [])
        [("ids", JSVal.str "bitcoin"), ("vs_currencies", JSVal.str "usd")] ∧
    (mcpGetTrendingCoins okFetch).1 =
      Envelope.successMsg (Json.obj []) "Trending coins fetched successfully" ∧
    (mcpGetTrendingCoins notFoundFetch).1 =
      Envelope.failure "Failed to fetch trending coins"
        ("CoinGecko API error: " ++ toString (404 : Nat) ++ " " ++ "Not Found") := by
  have hok := envelope_shapes okFetch
    ⟨JSVal.str "bitcoin", JSVal.str "usd", JSVal.undef, JSVal.undef, JSVal.undef, JSVal.undef,
      JSVal.undef⟩
    JSVal.undef JSVal.undef noTokenOptions (Json.obj []) ""
  have h404 := envelope_shapes notFoundFetch
    ⟨JSVal.str "bitcoin", JSVal.str "usd", JSVal.undef, JSVal.undef, JSVal.undef, JSVal.undef,
      JSVal.undef⟩
    JSVal.undef JSVal.undef noTokenOptions Json.null
    ("CoinGecko API error: " ++ toString (404 : Nat) ++ " " ++ "Not Found")
  exact ⟨hok.1 rfl, (hok.2.2.2.2.1 rfl).1, h404.2.2.2.2.2.1 rfl⟩

/-! ## C6 -/

/-- C6: on the HTTP surface a missing required input yields status 400 with
a structured body listing exactly the required field names; a successful
handler yields 200 with the result envelope as body; an upstream non-2xx or
a transport failure yields 500 with a body carrying only the error category
and the error message text — for all four routes (price lookup, trending,
new listings, token-by-address). -/
theorem http_status_mapping (fetch : Fetch) (i : SimplePriceInput) (c t : String)
    (o : TokenOptions) (r : HttpResp) (m : String) :
    (truthy i.ids = false ∨ truthy i.vs_currencies = false →
      httpSimplePrice fetch i =
        ⟨400, HttpBody.validationError "Missing required parameters" ["ids", "vs_currencies"]
          "Both 'ids' and 'vs_currencies' are required parameters", []⟩) ∧
    (c = "" ∨ t = "" →
      httpTokenByAddress fetch c t o =
        ⟨400, HttpBody.validationError "Missing required path parameters"
          ["chainId", "tokenAddress"]
          "Both 'chainId' and 'tokenAddress' are required in the URL path", []⟩) ∧
    (truthy i.ids = true → truthy i.vs_currencies = true →
      fetch (mkCall "/simple/price" (some (simplePriceHttpParams i))) =
        FetchOutcome.response r →
      respOk r = true →
      httpSimplePrice fetch i =
        ⟨200, HttpBody.env (Envelope.success r.body (simplePriceHttpParams i)),
          [mkCall "/simple/price" (some (simplePriceHttpParams i))]⟩) ∧
    (truthy i.ids = true → truthy i.vs_currencies = true →
      fetch (mkCall "/simple/price" (some (simplePriceHttpParams i))) =
        FetchOutcome.response r →
      respOk r = false →
      httpSimplePrice fetch i =
        ⟨500, HttpBody.env (Envelope.failure "Failed to fetch price data"
          ("CoinGecko API error: " ++ toString r.status ++ " " ++ r.statusText)),
          [mkCall "/simple/price" (some (simplePriceHttpParams i))]⟩) ∧
    (truthy i.ids = true → truthy i.vs_currencies = true →
      fetch (mkCall "/simple/price" (some (simplePriceHttpParams i))) =
        FetchOutcome.networkFailure m →
      httpSimplePrice fetch i =
        ⟨500, HttpBody.env (Envelope.failure "Failed to fetch price data" m),
          [mkCall "/simple/price" (some (simplePriceHttpParams i))]⟩) ∧
    (fetch (mkCall "/search/trending" none) = FetchOutcome.response r → respOk r = true →
      httpTrending fetch =
        ⟨200, HttpBody.env (Envelope.successMsg r.body "Trending coins fetched successfully"),
          [mkCall "/search/trending" none]⟩) ∧
    (fetch (mkCall "/search/trending" none) = FetchOutcome.response r → respOk r = false →
      httpTrending fetch =
        ⟨500, HttpBody.env (Envelope.failure "Failed to fetch trending coins"
          ("CoinGecko API error: " ++ toString r.status ++ " " ++ r.statusText)),
          [mkCall "/search/trending" none]⟩) ∧
    (fetch (mkCall "/search/trending" none) = FetchOutcome.networkFailure m →
      httpTrending fetch =
        ⟨500, HttpBody.env (Envelope.failure "Failed to fetch trending coins" m),
          [mkCall "/search/trending" none]⟩) ∧
    (fetch (mkCall "/coins/list/new" none) = FetchOutcome.response r → respOk r = true →
      httpNewCoins fetch =
        ⟨200, HttpBody.env (Envelope.successMsg r.body "Newly listed coins fetched successfully"),
          [mkCall "/coins/list/new" none]⟩) ∧
    (fetch (mkCall "/coins/list/new" none) = FetchOutcome.response r → respOk r = false →
      httpNewCoins fetch =
        ⟨500, HttpBody.env (Envelope.failure "Failed to fetch new coins"
          ("CoinGecko API error: " ++ toString r.status ++ " " ++ r.statusText)),
          [mkCall "/coins/list/new" none]⟩) ∧
    (fetch (mkCall "/coins/list/new" none) = FetchOutcome.networkFailure m →
      httpNewCoins fetch =
        ⟨500, HttpBody.env (Envelope.failure "Failed to fetch new coins" m),
          [mkCall "/coins/list/new" none]⟩) ∧
    (c ≠ "" → t ≠ "" →
      fetch (mkCall ("/coins/" ++ c ++ "/contract/" ++ t)
          (if (tokenOptParams o).length > 0 then some (tokenOptParams o) else none)) =
        FetchOutcome.response r →
      respOk r = true →
      httpTokenByAddress fetch c t o =
        ⟨200, HttpBody.env (Envelope.success r.body
          ([("chainId", JSVal.str c), ("tokenAddress", JSVal.str t)] ++ tokenOptParams o)),
          [mkCall ("/coins/" ++ c ++ "/contract/" ++ t)
            (if (tokenOptParams o).length > 0 then some (tokenOptParams o) else none)]⟩) ∧
    (c ≠ "" → t ≠ "" →
      fetch (mkCall ("/coins/" ++ c ++ "/contract/" ++ t)
          (if (tokenOptParams o).length > 0 then some (tokenOptParams o) else none)) =
        FetchOutcome.response r →
      respOk r = false →
      httpTokenByAddress fetch c t o =
        ⟨500, HttpBody.env (Envelope.failure "Failed to fetch token data"
          ("CoinGecko API error: " ++ toString r.status ++ " " ++ r.statusText)),
          [mkCall ("/coins/" ++ c ++ "/contract/" ++ t)
            (if (tokenOptParams o).length > 0 then some (tokenOptParams o) else none)]⟩) ∧
    (c ≠ "" → t ≠ "" →
      fetch (mkCall ("/coins/" ++ c ++ "/contract/" ++ t)
          (if (tokenOptParams o).length > 0 then some (tokenOptParams o) else none)) =
        FetchOutcome.networkFailure m →
      httpTokenByAddress fetch c t o =
        ⟨500, HttpBody.env (Envelope.failure "Failed to fetch token data" m),
          [mkCall ("/coins/" ++ c ++ "/contract/" ++ t)
            (if (tokenOptParams o).length > 0 then some (tokenOptParams o) else none)]⟩) := by
  refine ⟨httpSimplePrice_invalid fetch i, httpTokenByAddress_invalid fetch c t o, ?_, ?_, ?_,
    ?_, ?_, ?_, ?_, ?_, ?_, ?_, ?_, ?_⟩
  · intro h1 h2 hf hok
    have hr : (callCoinGeckoAPI fetch "/simple/price" (some (simplePriceHttpParams i))).1 =
        Except.ok r.body := by
      rw [callCoinGeckoAPI_eq, hf]
      simp [hok]
    rw [httpSimplePrice_eq fetch i h1 h2, hr]
  · intro h1 h2 hf hbad
    have hr : (callCoinGeckoAPI fetch "/simple/price" (some (simplePriceHttpParams i))).1 =
        Except.error ("CoinGecko API error: " ++ toString r.status ++ " " ++ r.statusText) := by
      rw [callCoinGeckoAPI_eq, hf]
      simp [hbad]
    rw [httpSimplePrice_eq fetch i h1 h2, hr]
  · intro h1 h2 hf
    have hr : (callCoinGeckoAPI fetch "/simple/price" (some (simplePriceHttpParams i))).1 =
        Except.error m := by
      rw [callCoinGeckoAPI_eq, hf]
    rw [httpSimplePrice_eq fetch i h1 h2, hr]
  · intro hf hok
    have hr : (callCoinGeckoAPI fetch "/search/trending" none).1 = Except.ok r.body := by
      rw [callCoinGeckoAPI_eq, hf]
      simp [hok]
    rw [httpTrending_eq, hr]
  · intro hf hbad
    have hr : (callCoinGeckoAPI fetch "/search/trending" none).1 =
        Except.error ("CoinGecko API error: " ++ toString r.status ++ " " ++ r.statusText) := by
      rw [callCoinGeckoAPI_eq, hf]
      simp [hbad]
    rw [httpTrending_eq, hr]
  · intro hf
    have hr : (callCoinGeckoAPI fetch "/search/trending" none).1 = Except.error m := by
      rw [callCoinGeckoAPI_eq, hf]
    rw [httpTrending_eq, hr]
  · intro hf hok
    have hr : (callCoinGeckoAPI fetch "/coins/list/new" none).1 = Except.ok r.body := by
      rw [callCoinGeckoAPI_eq, hf]
      simp [hok]
    rw [httpNewCoins_eq, hr]
  · intro hf hbad
    have hr : (callCoinGeckoAPI fetch "/coins/list/new" none).1 =
        Except.error ("CoinGecko API error: " ++ toString r.status ++ " " ++ r.statusText) := by
      rw [callCoinGeckoAPI_eq, hf]
      simp [hbad]
    rw [httpNewCoins_eq, hr]
  · intro hf
    have hr : (callCoinGeckoAPI fetch "/coins/list/new" none).1 = Except.error m := by
      rw [callCoinGeckoAPI_eq, hf]
    rw [httpNewCoins_eq, hr]
  · intro hc ht hf hok
    have hr : (callCoinGeckoAPI fetch ("/coins/" ++ c ++ "/contract/" ++ t)
        (if (tokenOptParams o).length > 0 then some (tokenOptParams o) else none)).1 =
        Except.ok r.body := by
      rw [callCoinGeckoAPI_eq, hf]
      simp [hok]
    rw [httpTokenByAddress_eq fetch c t o hc ht, hr]
  · intro hc ht hf hbad
    have hr : (callCoinGeckoAPI fetch ("/coins/" ++ c ++ "/contract/" ++ t)
        (if (tokenOptParams o).length > 0 then some (tokenOptParams o) else none)).1 =
        Except.error ("CoinGecko API error: " ++ toString r.status ++ " " ++ r.statusText) := by
      rw [callCoinGeckoAPI_eq, hf]
      simp [hbad]
    rw [httpTokenByAddress_eq fetch c t o hc ht, hr]
  · intro hc ht hf
    have hr : (callCoinGeckoAPI fetch ("/coins/" ++ c ++ "/contract/" ++ t)
        (if (tokenOptParams o).length > 0 then some (tokenOptParams o) else none)).1 =
        Except.error m := by
      rw [callCoinGeckoAPI_eq, hf]
    rw [httpTokenByAddress_eq fetch c t o hc ht, hr]

/-- Witness for C6 at concrete inputs: the missing-ids 400 body, a 200
success, a 404-driven 500 and a network-driven 500. -/
theorem http_status_mapping_witness :
    httpSimplePrice okFetch ⟨JSVal.undef, JSVal.str "usd", JSVal.undef, JSVal.undef,
        JSVal.undef, JSVal.undef, JSVal.undef⟩ =
      ⟨400, HttpBody.validationError "Missing required parameters" ["ids", "vs_currencies"]
        "Both 'ids' and 'vs_currencies' are required parameters", []⟩ ∧
    httpSimplePrice okFetch ⟨JSVal.str "bitcoin", JSVal.str "usd", JSVal.undef, JSVal.undef,
        JSVal.undef, JSVal.undef, JSVal.undef⟩ =
      ⟨200, HttpBody.env (Envelope.success (Json.obj [])
        [("ids", JSVal.str "bitcoin"), ("vs_currencies", JSVal.str "usd")]),
        [⟨"/simple/price", [("ids", "bitcoin"), ("vs_currencies", "usd")]⟩]⟩ ∧
    httpSimplePrice notFoundFetch ⟨JSVal.str "bitcoin", JSVal.str "usd", JSVal.undef,
        JSVal.undef, JSVal.undef, JSVal.undef, JSVal.undef⟩ =
      ⟨500, HttpBody.env (Envelope.failure "Failed to fetch price data"
        ("CoinGecko API error: " ++ toString (404 : Nat) ++ " " ++ "Not Found")),
        [⟨"/simple/price", [("ids", "bitcoin"), ("vs_currencies", "usd")]⟩]⟩ ∧
    httpSimplePrice downFetch ⟨JSVal.str "bitcoin", JSVal.str "usd", JSVal.undef, JSVal.undef,
        JSVal.undef, JSVal.undef, JSVal.undef⟩ =
      ⟨500, HttpBody.env (Envelope.failure "Failed to fetch price data" "fetch failed"),
        [⟨"/simple/price", [("ids", "bitcoin"), ("vs_currencies", "usd")]⟩]⟩ ∧
    httpTrending okFetch =
      ⟨200, HttpBody.env (Envelope.successMsg (Json.obj [])
        "Trending coins fetched successfully"), [⟨"/search/trending", []⟩]⟩ ∧
    httpTrending notFoundFetch =
      ⟨500, HttpBody.env (Envelope.failure "Failed to fetch trending coins"
        ("CoinGecko API error: " ++ toString (404 : Nat) ++ " " ++ "Not Found")),
        [⟨"/search/trending", []⟩]⟩ ∧
    httpNewCoins okFetch =
      ⟨200, HttpBody.env (Envelope.successMsg (Json.obj [])
        "Newly listed coins fetched successfully"), [⟨"/coins/list/new", []⟩]⟩ ∧
    httpNewCoins downFetch =
      ⟨500, HttpBody.env (Envelope.failure "Failed to fetch new coins" "fetch failed"),
        [⟨"/coins/list/new", []⟩]⟩ ∧
    httpTokenByAddress okFetch "ethereum" "0xABC" noTokenOptions =
      ⟨200, HttpBody.env (Envelope.success (Json.obj [])
        [("chainId", JSVal.str "ethereum"), ("tokenAddress", JSVal.str "0xABC")]),
        [⟨"/coins/ethereum/contract/0xABC", []⟩]⟩ ∧
    httpTokenByAddress notFoundFetch "ethereum" "0xABC" noTokenOptions =
      ⟨500, HttpBody.env (Envelope.failure "Failed to fetch token data"
        ("CoinGecko API error: " ++ toString (404 : Nat) ++ " " ++ "Not Found")),
        [⟨"/coins/ethereum/contract/0xABC", []⟩]⟩ := by
  have hmiss := http_status_mapping okFetch
    ⟨JSVal.undef, JSVal.str "usd", JSVal.undef, JSVal.undef, JSVal.undef, JSVal.undef,
      JSVal.undef⟩ "ethereum" "0xABC" noTokenOptions ⟨200, "OK", Json.obj []⟩ ""
  have hok := http_status_mapping okFetch
    ⟨JSVal.str "bitcoin", JSVal.str "usd", JSVal.undef, JSVal.undef, JSVal.undef, JSVal.undef,
      JSVal.undef⟩ "ethereum" "0xABC" noTokenOptions ⟨200, "OK", Json.obj []⟩ ""
  have h404 := http_status_mapping notFoundFetch
    ⟨JSVal.str "bitcoin", JSVal.str "usd", JSVal.undef, JSVal.undef, JSVal.undef, JSVal.undef,
      JSVal.undef⟩ "ethereum" "0xABC" noTokenOptions ⟨404, "Not Found", Json.null⟩ ""
  have hdown := http_status_mapping downFetch
    ⟨JSVal.str "bitcoin", JSVal.str "usd", JSVal.undef, JSVal.undef, JSVal.undef, JSVal.undef,
      JSVal.undef⟩ "ethereum" "0xABC" noTokenOptions ⟨404, "Not Found", Json.null⟩ "fetch failed"
  refine ⟨hmiss.1 (Or.inl rfl), hok.2.2.1 rfl rfl rfl (by decide),
    h404.2.2.2.1 rfl rfl rfl (by decide), hdown.2.2.2.2.1 rfl rfl rfl,
    hok.2.2.2.2.2.1 rfl (by decide),
    h404.2.2.2.2.2.2.1 rfl (by decide),
    hok.2.2.2.2.2.2.2.2.1 rfl (by decide),
    hdown.2.2.2.2.2.2.2.2.2.2.1 rfl,
    hok.2.2.2.2.2.2.2.2.2.2.2.1 (by decide) (by decide) rfl (by decide),
    h404.2.2.2.2.2.2.2.2.2.2.2.2.1 (by decide) (by decide) rfl (by decide)⟩

/-! ## C7 -/

/-- C7: the Payment Gate has exactly the two startup-fixed states — the
payment middleware with its static route-to-price table is installed, ahead
of the route tables, exactly when both the facilitator URL and the payout
address are configured; when either is absent the stack contains no payment
layer and all routes are installed ungated. -/
theorem payment_gate_two_states (env : Env) :
    paymentInstalled (appLayers env) = isPaymentConfigured env ∧
    (isPaymentConfigured env = false →
      appLayers env = [AppLayer.cors, AppLayer.jsonBody, AppLayer.healthRoutes,
        AppLayer.mcpRoutes, AppLayer.coingeckoRoutes, AppLayer.errorHandlerLayer]) ∧
    (isPaymentConfigured env = true →
      ∃ facilitatorUrl payTo, getFacilitatorUrl env = some facilitatorUrl ∧
        getPaymentAddress env = some payTo ∧
        appLayers env = [AppLayer.cors, AppLayer.jsonBody,
          AppLayer.payment payTo paymentRouteTable facilitatorUrl, AppLayer.healthRoutes,
          AppLayer.mcpRoutes, AppLayer.coingeckoRoutes, AppLayer.errorHandlerLayer]) := by
  unfold appLayers isPaymentConfigured
  cases hf : getFacilitatorUrl env with
  | none =>
      cases hp : getPaymentAddress env with
      | none => exact ⟨rfl, fun _ => rfl, fun h => by simp at h⟩
      | some p => exact ⟨rfl, fun _ => rfl, fun h => by simp at h⟩
  | some f =>
      cases hp : getPaymentAddress env with
      | none => exact ⟨rfl, fun _ => rfl, fun h => by simp at h⟩
      | some p => exact ⟨rfl, fun h => by simp at h, fun _ => ⟨f, p, rfl, rfl, rfl⟩⟩

/-- Witness for C7 at concrete environments: a fully configured one and one
missing the payout address. -/
theorem payment_gate_two_states_witness :
    appLayers ⟨some "https://x402.org/facilitator", none⟩ =
      [AppLayer.cors, AppLayer.jsonBody, AppLayer.healthRoutes, AppLayer.mcpRoutes,
        AppLayer.coingeckoRoutes, AppLayer.errorHandlerLayer] ∧
    appLayers ⟨some "https://x402.org/facilitator", some "0xPay"⟩ =
      [AppLayer.cors, AppLayer.jsonBody,
        AppLayer.payment "0xPay" paymentRouteTable "https://x402.org/facilitator",
        AppLayer.healthRoutes, AppLayer.mcpRoutes, AppLayer.coingeckoRoutes,
        AppLayer.errorHandlerLayer] := by
  have hoff := payment_gate_two_states ⟨some "https://x402.org/facilitator", none⟩
  have hon := payment_gate_two_states ⟨some "https://x402.org/facilitator", some "0xPay"⟩
  refine ⟨hoff.2.1 rfl, ?_⟩
  obtain ⟨f, p, hf, hp, happ⟩ := hon.2.2 rfl
  have hf2 : f = "https://x402.org/facilitator" := by
    have : some f = some "https://x402.org/facilitator" := by rw [← hf]; rfl
    exact (Option.some.inj this)
  have hp2 : p = "0xPay" := by
    have : some p = some "0xPay" := by rw [← hp]; rfl
    exact (Option.some.inj this)
  rw [hf2, hp2] at happ
  exact happ

/-! ## C8 -/

/-- C8: the tool-call dispatch answers an unrecognised tool name with a
textual error content block (the call succeeds at the transport level),
while the resource-read dispatch fails the call with an error for an
unrecognised URI. -/
theorem unknown_tool_vs_unknown_resource (fetch : Fetch) (now : String) (name uri : String)
    (args : ToolArgs) :
    (name ≠ "get_simple_price" → name ≠ "get_trending_coins" → name ≠ "get_new_coins" →
      name ≠ "get_token_price_by_address" →
      handleCallToolRequest fetch name args =
        ToolCallOutcome.unknownTool ("Error: Unknown tool " ++ name)) ∧
    (uri ≠ "coingecko://market/status" → uri ≠ "coingecko://trending/coins" →
      uri ≠ "coingecko://new/coins" → uri ≠ "coingecko://api/info" →
      handleReadResource fetch now uri = (Except.error ("Unknown resource: " ++ uri), [])) := by
  constructor
  · intro h1 h2 h3 h4
    unfold handleCallToolRequest
    rw [if_neg h1, if_neg h2, if_neg h3, if_neg h4]
  · intro h1 h2 h3 h4
    unfold handleReadResource
    rw [if_neg h1, if_neg h2, if_neg h3, if_neg h4]

/-- Witness for C8 at a concrete unknown tool name and resource URI. -/
theorem unknown_tool_vs_unknown_resource_witness :
    handleCallToolRequest okFetch "get_price" ToolArgs.empty =
      ToolCallOutcome.unknownTool "Error: Unknown tool get_price" ∧
    handleReadResource okFetch "2025-01-01T00:00:00.000Z" "coingecko://prices" =
      (Except.error "Unknown resource: coingecko://prices", []) := by
  have h := unknown_tool_vs_unknown_resource okFetch "2025-01-01T00:00:00.000Z"
    "get_price" "coingecko://prices" ToolArgs.empty
  exact ⟨h.1 (by decide) (by decide) (by decide) (by decide),
    h.2 (by decide) (by decide) (by decide) (by decide)⟩

/-! ## C10 -/

/-- C10: the get-prompt dispatch treats missing arguments asymmetrically —
crypto_price_check with no arguments succeeds with the defaults
tokens = bitcoin,ethereum,solana and currencies = usd,eur, while
token_research with a missing address raises an error and a missing chain
alone is defaulted to ethereum. -/
theorem prompt_argument_asymmetry (a : PromptArgs) :
    handleGetPromptRequest "crypto_price_check" {} =
      Except.ok [{ role := "user"
                   text := "Please check the current prices for bitcoin,ethereum,solana in usd,eur. Use the get_simple_price tool with these parameters." }] ∧
    (truthy a.address = false →
      handleGetPromptRequest "token_research" a =
        Except.error "Token address is required for token research") ∧
    (truthy a.chain = false → truthy a.address = true →
      handleGetPromptRequest "token_research" a =
        Except.ok [{ role := "user"
                     text := "Please research the token at address " ++ jsToString a.address ++
                       " on " ++ "ethereum" ++
                       " blockchain. Use the get_token_price_by_address tool with market_data=true to get comprehensive information including price, market cap, volume, and other key metrics." }]) := by
  refine ⟨rfl, ?_, ?_⟩
  · intro h
    unfold handleGetPromptRequest
    rw [if_neg (by decide), if_neg (by decide), if_pos rfl]
    unfold handleTokenResearchPrompt
    simp [h]
  · intro hc ha
    unfold handleGetPromptRequest
    rw [if_neg (by decide), if_neg (by decide), if_pos rfl]
    unfold handleTokenResearchPrompt
    simp [hc, ha, jsToString]

/-- Witness for C10 at concrete prompt arguments. -/
theorem prompt_argument_asymmetry_witness :
    handleGetPromptRequest "crypto_price_check" {} =
      Except.ok [{ role := "user"
                   text := "Please check the current prices for bitcoin,ethereum,solana in usd,eur. Use the get_simple_price tool with these parameters." }] ∧
    handleGetPromptRequest "token_research" { chain := JSVal.str "ethereum" } =
      Except.error "Token address is required for token research" ∧
    handleGetPromptRequest "token_research" { address := JSVal.str "0xABC" } =
      Except.ok [{ role := "user"
                   text := "Please research the token at address " ++ jsToString (JSVal.str "0xABC") ++
                     " on " ++ "ethereum" ++
                     " blockchain. Use the get_token_price_by_address tool with market_data=true to get comprehensive information including price, market cap, volume, and other key metrics." }] := by
  have h1 := prompt_argument_asymmetry { chain := JSVal.str "ethereum" }
  have h2 := prompt_argument_asymmetry { address := JSVal.str "0xABC" }
  exact ⟨h1.1, h1.2.1 rfl, h2.2.2 rfl rfl⟩

end CoinGeckoAgent
